import Mathlib

/-!
Verification development for the retrieval and chat-orchestration pipeline of
a RAG chatbot backend (`src/app.py`).  Strings are modelled as `List Char`;
Python whitespace handling is modelled over the ASCII whitespace class, and
`str.lower` over ASCII letters (the only characters the token pattern
`[a-zA-Z0-9_]` accepts).  Database-backed state (the `rag_chunks` table) is
modelled as a list of rows, and the `uuid4` fresh-id supply as a counter that
hands out increasing numeric ids.  Network interactions are modelled by
passing the downstream outcome as an explicit argument.
-/

/-- ASCII whitespace, the characters `str.strip()` removes on ASCII text. -/
def pyIsSpace (c : Char) : Bool :=
  c = ' ' || c = '\t' || c = '\n' || c = '\r' || c = '\x0b' || c = '\x0c'

/-- Python `str.strip()`: drop whitespace from both ends. -/
def pyStrip (s : List Char) : List Char :=
  ((s.dropWhile pyIsSpace).reverse.dropWhile pyIsSpace).reverse

/-- A character matched by the token pattern `[a-zA-Z0-9_]`. -/
def isWordChar (c : Char) : Bool :=
  c.isAlpha || c.isDigit || c = '_'

/-- Maximal runs of word characters, in order (the matches of the greedy
regex `[a-zA-Z0-9_]+` under `re.findall`).  `acc` holds the current run,
reversed. -/
def wordRuns (acc : List Char) : List Char → List (List Char)
  | [] => if acc.isEmpty then [] else [acc.reverse]
  | c :: cs =>
    if isWordChar c then wordRuns (c :: acc) cs
    else if acc.isEmpty then wordRuns [] cs
    else acc.reverse :: wordRuns [] cs

/-- Source `tokenize(text)` from `src/app.py`: the set of matches of
`[a-zA-Z0-9_]{3,}` over the lowercased text.  A run of word characters of
length at least 3 is matched greedily as one whole token; shorter runs are
skipped.  The Python `set` is represented as a duplicate-free list. -/
def tokenize (text : List Char) : List (List Char) :=
  ((wordRuns [] (text.map Char.toLower)).filter (fun r => 3 ≤ r.length)).dedup

/-- Source `len(query_tokens.intersection(doc_tokens))` where `query_tokens` is
duplicate-free. -/
def overlapCount (queryTokens chunkTokens : List (List Char)) : Nat :=
  (queryTokens.filter (fun t => chunkTokens.contains t)).length

/-- Lexicographic comparison of strings by code point (Python `sorted` on
`str`). -/
def strLe : List Char → List Char → Bool
  | [], _ => true
  | _ :: _, [] => false
  | a :: as, b :: bs => if a < b then true else if b < a then false else strLe as bs

/-- Source `sorted(tokens)` for a token set. -/
def sortTokens (ts : List (List Char)) : List (List Char) :=
  ts.mergeSort strLe

/-- Decimal rendering of a number, as used by Python f-strings. -/
def natStr (n : Nat) : List Char :=
  (toString n).toList

/-- Reference configuration (the env-var defaults in `src/app.py`). -/
def RAG_TOP_K : Nat := 3

def RAG_CHUNK_SIZE : Nat := 700

def RAG_CHUNK_OVERLAP : Nat := 120

def RAG_AUTO_INGEST_MIN_CHARS : Nat := 600

def CHAT_HISTORY_MESSAGES : Nat := 6

def WEB_LOOKUP_TOP_K : Nat := 5

def OLLAMA_MODEL : List Char := "llama3.2:1b".toList

/-- The loop of `chunk_text`: `for start in range(0, len(text), step)`,
taking `text[start : start + chunk_size].strip()`, keeping it if non-empty,
and breaking once `start + chunk_size >= len(text)`.  The effective stride is
`max 1 step`, mirroring `step = max(1, chunk_size - overlap)` (for natural
inputs `chunk_size - overlap` truncates at 0 exactly when Python's value is
non-positive, so taking `max 1` here agrees with the source). -/
def chunkLoop (text : List Char) (chunk_size step start : Nat) : List (List Char) :=
  if _h : start < text.length then
    let part := pyStrip ((text.drop start).take chunk_size)
    let rest :=
      if text.length ≤ start + chunk_size then []
      else chunkLoop text chunk_size step (start + max 1 step)
    if part.isEmpty then rest else part :: rest
  else []
termination_by text.length - start
decreasing_by
  have hstep : 1 ≤ max 1 step := Nat.le_max_left 1 step
  omega

/-- Source `chunk_text(text, chunk_size, overlap)` from `src/app.py`. -/
def chunk_text (text : List Char) (chunk_size overlap : Nat) : List (List Char) :=
  if text.isEmpty then []
  else chunkLoop text chunk_size (chunk_size - overlap) 0

/-- Take elements until (and including) the first one satisfying `p`. -/
def takeThrough (p : α → Bool) : List α → List α
  | [] => []
  | a :: as => if p a then [a] else a :: takeThrough p as

/-- The windowing algorithm exactly as the specification words it: window
start offsets `0, step, 2*step, ...` with `step = max(1, chunk_size -
overlap)`, processed in order up to and including the first whose window end
reaches or exceeds the text length; each window is trimmed of surrounding
whitespace and kept if non-empty.  (The generating arithmetic progression is
given `text.length` entries, which always reaches past the stopping point.) -/
def chunkSpec (text : List Char) (chunk_size overlap : Nat) : List (List Char) :=
  let step := max 1 (chunk_size - overlap)
  let starts :=
    takeThrough (fun s => decide (text.length ≤ s + chunk_size))
      (List.range' 0 text.length step)
  (starts.map (fun s => pyStrip ((text.drop s).take chunk_size))).filter
    (fun part => !part.isEmpty)

/-- Fuel-indexed version of `chunkLoop`: runs the same iteration but gives up
(returning `none`) when the fuel is exhausted.  Used to state that the source
loop halts within `text.length + 1` iterations for every parameter choice. -/
def chunkLoopFuel (text : List Char) (chunk_size step : Nat) :
    Nat → Nat → Option (List (List Char))
  | 0, _ => none
  | fuel + 1, start =>
    if start < text.length then
      let part := pyStrip ((text.drop start).take chunk_size)
      if text.length ≤ start + chunk_size then
        some (if part.isEmpty then [] else [part])
      else
        match chunkLoopFuel text chunk_size step fuel (start + max 1 step) with
        | none => none
        | some rest => some (if part.isEmpty then rest else part :: rest)
    else some []

/-- A row of the `rag_chunks` table. -/
structure Chunk where
  id : Nat
  filename : List Char
  chunk_index : Nat
  content : List Char
  tokens : List (List Char)
deriving DecidableEq

/-- The dictionaries returned by `retrieve_context`. -/
structure RagItem where
  filename : List Char
  index : Nat
  content : List Char
deriving DecidableEq

/-- Source `ranked.sort(key=lambda item: item[0], reverse=True)`: stable descending
order on the overlap score. -/
def rankedLe (a b : Nat × RagItem) : Bool :=
  decide (b.1 ≤ a.1)

/-- The `ranked` list built by `retrieve_context`: one scored entry per
stored chunk with positive overlap, in storage order. -/
def ranked_chunks (store : List Chunk) (query_tokens : List (List Char)) :
    List (Nat × RagItem) :=
  store.filterMap (fun c =>
    let overlap := overlapCount query_tokens c.tokens
    if 0 < overlap then
      some (overlap, ⟨c.filename, c.chunk_index, c.content⟩)
    else none)

/-- Source `retrieve_context(query, top_k)` from `src/app.py`, over a store
modelled as the list of table rows. -/
def retrieve_context (store : List Chunk) (query : List Char) (top_k : Nat) :
    List RagItem :=
  let query_tokens := tokenize query
  if query_tokens.isEmpty then []
  else if store.isEmpty then []
  else
    (((ranked_chunks store query_tokens).mergeSort rankedLe).take top_k).map
      (fun item => item.2)

/-- The rows inserted by one `add_document_chunks` call: chunk `content`,
then insert the enumerated chunks.  `uuid4` fresh ids are modelled by a
counter: the `k`-th inserted row receives id `nextId + k`. -/
def chunkRows (filename content : List Char) (nextId : Nat) : List Chunk :=
  (chunk_text content RAG_CHUNK_SIZE RAG_CHUNK_OVERLAP).enum.map (fun p =>
    { id := nextId + p.1
      filename := filename
      chunk_index := p.1
      content := p.2
      tokens := sortTokens (tokenize p.2) })

/-- Source `add_document_chunks(filename, content)`: returns the new store, the new
id counter, and the number of chunks inserted (the function's return
value). -/
def add_document_chunks (store : List Chunk) (nextId : Nat)
    (filename content : List Char) : List Chunk × Nat × Nat :=
  let chunks := chunk_text content RAG_CHUNK_SIZE RAG_CHUNK_OVERLAP
  (store ++ chunkRows filename content nextId, nextId + chunks.length,
    chunks.length)

/-- Source `rag_counts()`: `(COUNT(DISTINCT filename), COUNT(*))`. -/
def rag_counts (store : List Chunk) : Nat × Nat :=
  ((store.map (fun c => c.filename)).dedup.length, store.length)

/-- Source `rag_filenames()`: `SELECT DISTINCT filename ... ORDER BY filename`. -/
def rag_filenames (store : List Chunk) : List (List Char) :=
  ((store.map (fun c => c.filename)).dedup).mergeSort strLe

/-- Source `should_auto_ingest(message)` from `src/app.py`, with the character
threshold as an explicit parameter (env default 600). -/
def should_auto_ingest (min_chars : Nat) (message : List Char) : Bool :=
  let text := pyStrip message
  if text.isEmpty then false
  else
    let line_count := text.count '\n' + 1
    let question_marks := text.count '?'
    let looks_long :=
      decide (min_chars ≤ text.length) || decide (12 ≤ line_count)
    let looks_like_question := decide (2 ≤ question_marks)
    looks_long && !looks_like_question

/-- A caller-supplied conversation turn (`{"role": ..., "content": ...}`). -/
structure Turn where
  role : List Char
  content : List Char
deriving DecidableEq

/-- A message sent downstream (`{"role": ..., "content": ...}`). -/
structure Msg where
  role : List Char
  content : List Char
deriving DecidableEq

def userRole : List Char := "user".toList

def assistantRole : List Char := "assistant".toList

def systemRole : List Char := "system".toList

/-- A normalized web search result. -/
structure WebResult where
  title : List Char
  snippet : List Char
  link : List Char
deriving DecidableEq

/-- The base system prompt (`SYSTEM_PROMPT` in `src/app.py`). -/
def SYSTEM_PROMPT : List Char :=
  ("You are a knowledgeable and helpful AI assistant. You can discuss any topic including:\n- Technology, programming, and software development\n- Science, mathematics, and engineering\n- Business, finance, and economics\n- Arts, literature, and culture\n- History, geography, and current events\n- Health, fitness, and wellness\n- And much more\n\nProvide clear, accurate, and helpful responses. Use examples when appropriate.\nBe conversational and friendly. If you\x27re not sure about something, say so.\nDefault to concise answers unless the user asks for deep detail.\nKeep default answers under 120 words and use short bullet points when possible.").toList

/-- One `[web-N] title / snippet / url` block. -/
def webBlock (index : Nat) (r : WebResult) : List Char :=
  ("[web-").toList ++ natStr index ++ ("] ").toList ++ r.title ++
    ("\nSnippet: ").toList ++ r.snippet ++ ("\nURL: ").toList ++ r.link

/-- Source `build_system_prompt(rag_enabled, user_message, web_enabled, web_results)`
from `src/app.py` (the document store is the modelled table state). -/
def build_system_prompt (store : List Chunk) (rag_enabled : Bool)
    (user_message : List Char) (web_enabled : Bool)
    (web_results : List WebResult) : List Char :=
  let prompt := SYSTEM_PROMPT
  let prompt :=
    if web_enabled && !web_results.isEmpty then
      prompt ++
        ("\n\nWEB LOOKUP MODE: Use the following Google search snippets as fresh context. Prefer these sources for time-sensitive facts and mention URLs when useful.\n\n").toList ++
        List.intercalate (("\n\n").toList)
          (web_results.enum.map (fun p => webBlock (p.1 + 1) p.2))
    else prompt
  if !rag_enabled then prompt
  else
    let found := retrieve_context store user_message RAG_TOP_K
    if found.isEmpty then
      prompt ++
        ("\n\nRAG MODE: No matching document context found for this question.").toList
    else
      prompt ++
        ("\n\nRAG MODE: Use only the following document context when relevant. If context is insufficient, clearly say so.\n\n").toList ++
        List.intercalate (("\n\n").toList)
          (found.map (fun m =>
            ("[").toList ++ m.filename ++ ("#").toList ++ natStr m.index ++
              ("]\n").toList ++ m.content))

/-- The history filter in `build_messages`:
`role in ("user", "assistant") and content`. -/
def valid_turn (msg : Turn) : Bool :=
  (msg.role == userRole || msg.role == assistantRole) && !msg.content.isEmpty

/-- Python `l[-n:]` for a non-negative `n` (for `n = 0` Python's `l[-0:]` is
the whole list). -/
def pyLastSlice (n : Nat) (l : List α) : List α :=
  if n = 0 then l else l.drop (l.length - n)

/-- Source `build_messages(...)` from `src/app.py`, with the history bound as an
explicit parameter (env default 6).  The history loop is the source's
append-one-by-one `for` loop. -/
def build_messages (store : List Chunk) (n_history : Nat)
    (user_message : List Char) (conversation_history : List Turn)
    (rag_enabled web_enabled : Bool) (web_results : List WebResult) :
    List Msg :=
  let bounded_history := pyLastSlice n_history conversation_history
  let messages : List Msg :=
    [⟨systemRole,
      build_system_prompt store rag_enabled user_message web_enabled
        web_results⟩]
  let messages := bounded_history.foldl
    (fun acc msg =>
      if valid_turn msg then acc ++ [⟨msg.role, msg.content⟩] else acc)
    messages
  messages ++ [⟨userRole, user_message⟩]

/-- A raw item from the search provider's `items` list (each field read with
`item.get(..., "")`). -/
structure RawItem where
  title : List Char
  snippet : List Char
  link : List Char
deriving DecidableEq

/-- What the network does when the provider is actually called. -/
inductive WebOutcome
  | transportError
  | httpResponse (ok : Bool) (items : List RawItem)
deriving DecidableEq

/-- The request parameters `fetch_google_results` sends to the provider. -/
structure WebRequest where
  key : List Char
  cx : List Char
  q : List Char
  num : Nat
deriving DecidableEq

inductive WebErrorKind
  | not_configured
  | lookup_failed
deriving DecidableEq

/-- Source `web_lookup_configured()`: both credentials non-empty. -/
def web_lookup_configured (apiKey cseId : List Char) : Bool :=
  !apiKey.isEmpty && !cseId.isEmpty

/-- Source `fetch_google_results(query, top_k)` from `src/app.py`.  The first
component records the provider request actually issued (`none` when no
network call is made); the network's behaviour is the explicit `outcome`
argument. -/
def fetch_google_results (apiKey cseId : List Char) (outcome : WebOutcome)
    (query : List Char) (top_k : Nat) :
    Option WebRequest × List WebResult × Option WebErrorKind :=
  if !web_lookup_configured apiKey cseId then (none, [], some .not_configured)
  else
    let req : WebRequest := ⟨apiKey, cseId, query, max 1 (min top_k 10)⟩
    match outcome with
    | .transportError => (some req, [], some .lookup_failed)
    | .httpResponse ok items =>
      if !ok then (some req, [], some .lookup_failed)
      else
        let results := items.filterMap (fun item =>
          if !item.title.isEmpty || !item.snippet.isEmpty ||
              !item.link.isEmpty then
            some (⟨item.title, item.snippet, item.link⟩ : WebResult)
          else none)
        (some req, results, none)

/-- Source `resolve_model(selected_model)` from `src/app.py` (`none` models a
missing or non-string field). -/
def resolve_model (selected_model : Option (List Char)) : List Char :=
  match selected_model with
  | some s => if (pyStrip s).isEmpty then OLLAMA_MODEL else pyStrip s
  | none => OLLAMA_MODEL

/-- An inbound chat request body. -/
structure ChatRequest where
  message : List Char
  history : List Turn
  rag_enabled : Bool
  web_enabled : Bool
  model : Option (List Char)

/-- The result of `ingest_pasted_document`. -/
structure IngestResult where
  filename : List Char
  chunks_added : Nat
  newStore : List Chunk
  newNextId : Nat

/-- Source `ingest_pasted_document(message)` from `src/app.py`. -/
def ingest_pasted_document (store : List Chunk) (nextId : Nat)
    (message : List Char) : IngestResult :=
  let document_count := (rag_counts store).1
  let filename :=
    ("chat-paste-").toList ++ natStr (document_count + 1) ++ (".txt").toList
  let r := add_document_chunks store nextId filename message
  ⟨filename, r.2.2, r.1, r.2.1⟩

/-- The acknowledgment text of the auto-ingest branch. -/
def ack_text (filename : List Char) (chunks_added : Nat) : List Char :=
  ("Document saved from chat as ").toList ++ filename ++ (" with ").toList ++
    natStr chunks_added ++
    (" chunks. Now ask your question and I will use it in RAG mode.").toList

/-- The JSON payload of the single-shot auto-ingest acknowledgment. -/
structure AckPayload where
  success : Bool
  message : List Char
  model : List Char
  rag_enabled : Bool
  rag_ingested : Bool
  rag_total_chunks : Nat
  web_enabled : Bool
deriving DecidableEq

def web_not_configured_error : List Char :=
  ("Web Mode is enabled but Google lookup is not configured. Set GOOGLE_API_KEY and GOOGLE_CSE_ID.").toList

/-- How a single-shot `chat` request terminates before (or instead of) the
downstream model call: an HTTP 400 configuration error, the auto-ingest
acknowledgment (carrying the updated store), or the downstream dispatch with
the assembled messages. -/
inductive ChatStepResult
  | badRequest (error : List Char)
  | ingestAck (payload : AckPayload) (newStore : List Chunk) (newNextId : Nat)
  | callModel (messages : List Msg)

/-- The pre-dispatch orchestration of the `chat` endpoint (`src/app.py`
lines 401-452): web lookup, configuration check, auto-ingest check, prompt
assembly. -/
def chat_step (apiKey cseId : List Char) (webOutcome : WebOutcome)
    (store : List Chunk) (nextId : Nat) (req : ChatRequest) : ChatStepResult :=
  let selected_model := resolve_model req.model
  let webFetch :=
    if req.web_enabled then
      fetch_google_results apiKey cseId webOutcome req.message WEB_LOOKUP_TOP_K
    else (none, [], none)
  if req.web_enabled && decide (webFetch.2.2 = some .not_configured) then
    .badRequest web_not_configured_error
  else if req.rag_enabled &&
      should_auto_ingest RAG_AUTO_INGEST_MIN_CHARS req.message then
    let r := ingest_pasted_document store nextId req.message
    .ingestAck
      ⟨true, ack_text r.filename r.chunks_added, selected_model, true, true,
        (rag_counts r.newStore).2, req.web_enabled⟩
      r.newStore r.newNextId
  else
    .callModel
      (build_messages store CHAT_HISTORY_MESSAGES req.message req.history
        req.rag_enabled req.web_enabled webFetch.2.1)

/-- A newline-delimited JSON event emitted by the streaming endpoint. -/
inductive Event
  | token (content : List Char)
  | done (model : List Char) (rag_enabled rag_ingested web_enabled : Bool)
  | error (err : List Char) (details : List Char)
deriving DecidableEq

/-- Source `generate_ingest_ack()` from `src/app.py`: the two events of the
streaming auto-ingest acknowledgment. -/
def generate_ingest_ack (filename : List Char) (chunks_added : Nat)
    (selected_model : List Char) (web_enabled : Bool) : List Event :=
  [.token (ack_text filename chunks_added),
    .done selected_model true true web_enabled]

/-- How a streaming `chat_stream` request terminates before (or instead of)
the downstream model call. -/
inductive StreamStepResult
  | badRequest (error : List Char)
  | ingestStream (events : List Event) (newStore : List Chunk)
      (newNextId : Nat)
  | callModel (messages : List Msg)

/-- The pre-dispatch orchestration of the `chat_stream` endpoint
(`src/app.py` lines 510-567), identical to `chat_step` except that the
auto-ingest acknowledgment is emitted as a stream of events. -/
def chat_stream_step (apiKey cseId : List Char) (webOutcome : WebOutcome)
    (store : List Chunk) (nextId : Nat) (req : ChatRequest) :
    StreamStepResult :=
  let selected_model := resolve_model req.model
  let webFetch :=
    if req.web_enabled then
      fetch_google_results apiKey cseId webOutcome req.message WEB_LOOKUP_TOP_K
    else (none, [], none)
  if req.web_enabled && decide (webFetch.2.2 = some .not_configured) then
    .badRequest web_not_configured_error
  else if req.rag_enabled &&
      should_auto_ingest RAG_AUTO_INGEST_MIN_CHARS req.message then
    let r := ingest_pasted_document store nextId req.message
    .ingestStream
      (generate_ingest_ack r.filename r.chunks_added selected_model
        req.web_enabled)
      r.newStore r.newNextId
  else
    .callModel
      (build_messages store CHAT_HISTORY_MESSAGES req.message req.history
        req.rag_enabled req.web_enabled webFetch.2.1)

/-- The downstream model service's behaviour for one request. -/
inductive OllamaOutcome
  | timeout
  | transportError
  | httpResponse (status : Nat) (content : List Char)
deriving DecidableEq

/-- The HTTP response of the single-shot `chat` endpoint after dispatch. -/
inductive ChatHttpResponse
  | ok (message : List Char) (model : List Char)
      (rag_enabled rag_ingested web_enabled : Bool)
  | err (httpStatus : Nat) (error : List Char)
deriving DecidableEq

def generic_chat_error : List Char :=
  ("An error occurred processing your request").toList

def timeout_chat_error : List Char :=
  ("Request timed out. The model might be loading. Please try again.").toList

/-- The downstream-dispatch half of the single-shot `chat` endpoint
(`src/app.py` lines 454-507): a non-200 status or an empty assistant message
raises, which the handler turns into a generic 500 failure; a timeout is a
504; otherwise the trimmed assistant text is returned with `success`
(`ChatHttpResponse.ok`). -/
def chat_downstream (selected_model : List Char)
    (rag_enabled web_enabled : Bool) (outcome : OllamaOutcome) :
    ChatHttpResponse :=
  match outcome with
  | .timeout => .err 504 timeout_chat_error
  | .transportError => .err 500 generic_chat_error
  | .httpResponse status content =>
    if status ≠ 200 then .err 500 generic_chat_error
    else if content.isEmpty then .err 500 generic_chat_error
    else .ok (pyStrip content) selected_model rag_enabled false web_enabled

/-- One line of the downstream streaming response body: blank, non-JSON, or
a parsed record carrying `message.content` (possibly empty) and the `done`
flag. -/
inductive Fragment
  | blank
  | malformed
  | record (content : List Char) (done : Bool)
deriving DecidableEq

/-- The relay loop of `chat_stream.generate` (`src/app.py` lines 596-621):
blank and malformed lines are skipped; a record's non-empty content is
forwarded as a token event; the first record with the `done` flag emits the
completion event and stops the relay. -/
def relay_fragments (selected_model : List Char)
    (rag_enabled web_enabled : Bool) : List Fragment → List Event
  | [] => []
  | .blank :: rest => relay_fragments selected_model rag_enabled web_enabled rest
  | .malformed :: rest =>
    relay_fragments selected_model rag_enabled web_enabled rest
  | .record content d :: rest =>
    (if content.isEmpty then [] else [.token content]) ++
      (if d then [.done selected_model rag_enabled false web_enabled]
       else relay_fragments selected_model rag_enabled web_enabled rest)

/-- Source `chat_stream.generate` (`src/app.py` lines 569-630) on a downstream
response: a non-200 status yields a single error event; otherwise the body's
lines are relayed. -/
def stream_generate (selected_model : List Char)
    (rag_enabled web_enabled : Bool) (status : Nat) (bodyText : List Char)
    (fragments : List Fragment) : List Event :=
  if status ≠ 200 then [.error (("Ollama API error").toList) bodyText]
  else relay_fragments selected_model rag_enabled web_enabled fragments

/-- The token events a single fragment contributes to the relay. -/
def fragment_tokens : Fragment → List Event
  | .record content _ => if content.isEmpty then [] else [.token content]
  | _ => []

/-- Whether a fragment is a record with the `done` flag set. -/
def fragment_is_done : Fragment → Bool
  | .record _ d => d
  | _ => false

theorem chunkLoop_eq_takeThrough (text : List Char) (cs step : Nat) :
    ∀ n start, text.length ≤ start + n * max 1 step →
      chunkLoop text cs step start =
        ((takeThrough (fun s => decide (text.length ≤ s + cs))
            (List.range' start n (max 1 step))).map
          (fun s => pyStrip ((text.drop s).take cs))).filter
          (fun part => !part.isEmpty) := by
  intro n
  induction n with
  | zero =>
    intro start h
    rw [chunkLoop]
    simp only [Nat.zero_mul, Nat.add_zero] at h
    simp [List.range', takeThrough, show ¬start < text.length by omega]
  | succ n ih =>
    intro start h
    rw [Nat.succ_mul] at h
    rw [chunkLoop]
    by_cases hlt : start < text.length
    · simp only [hlt, dif_pos]
      by_cases hbr : text.length ≤ start + cs
      · by_cases hp : (pyStrip ((text.drop start).take cs)).isEmpty
        · simp [List.range', takeThrough, hbr, hp, List.isEmpty_iff.mp hp]
        · simp [List.range', takeThrough, hbr, hp,
            List.isEmpty_iff.not.mp hp]
      · have hrec := ih (start + max 1 step) (by
          have hm : 1 ≤ max 1 step := Nat.le_max_left 1 step
          omega)
        by_cases hp : (pyStrip ((text.drop start).take cs)).isEmpty
        · simp [List.range', takeThrough, hbr, hrec, List.isEmpty_iff.mp hp,
            List.filter_cons]
        · simp [List.range', takeThrough, hbr, hrec,
            List.isEmpty_iff.not.mp hp, List.filter_cons, hp]
    · have hle : text.length ≤ start := by omega
      have hdrop : text.drop start = [] := List.drop_eq_nil_of_le hle
      simp [hlt, List.range', takeThrough, show text.length ≤ start + cs by omega,
        hdrop, pyStrip]

/-- C2: `chunk_text(text, chunk_size, overlap)` equals the sequence produced
by the spec's windowing algorithm (window of `chunk_size` characters from
each start offset, trimmed, kept if non-empty, start advancing by
`max(1, chunk_size - overlap)`, stopping once a window's end reaches or
exceeds the text length, that final partial window included); in particular
`chunk_text("") = []` and no returned chunk is empty after trimming. -/
theorem chunk_text_matches_spec (text : List Char) (chunk_size overlap : Nat) :
    chunk_text text chunk_size overlap = chunkSpec text chunk_size overlap ∧
    chunk_text [] chunk_size overlap = [] ∧
    ∀ part ∈ chunk_text text chunk_size overlap, part ≠ [] := by
  have main : ∀ t : List Char,
      chunk_text t chunk_size overlap = chunkSpec t chunk_size overlap := by
    intro t
    unfold chunk_text chunkSpec
    by_cases he : t.isEmpty
    · have : t = [] := List.isEmpty_iff.mp he
      subst this
      simp [List.range', takeThrough]
    · simp only [he, if_false, Bool.false_eq_true]
      exact chunkLoop_eq_takeThrough t chunk_size (chunk_size - overlap)
        t.length 0 (by
          have h1 : 1 ≤ max 1 (chunk_size - overlap) := Nat.le_max_left _ _
          have h2 : t.length * 1 ≤ t.length * max 1 (chunk_size - overlap) :=
            Nat.mul_le_mul_left t.length h1
          omega)
  refine ⟨main text, by simp [chunk_text], ?_⟩
  intro part hmem
  rw [main text] at hmem
  unfold chunkSpec at hmem
  simp only [List.mem_filter, Bool.not_eq_eq_eq_not, Bool.not_true,
    Bool.not_eq_true'] at hmem
  intro hnil
  rcases hmem with ⟨-, hne⟩
  simp [hnil] at hne

theorem chunkLoopFuel_sufficient (text : List Char) (cs step : Nat) :
    ∀ fuel start, text.length - start < fuel →
      chunkLoopFuel text cs step fuel start =
        some (chunkLoop text cs step start) := by
  intro fuel
  induction fuel with
  | zero => intro start h; omega
  | succ fuel ih =>
    intro start h
    rw [chunkLoopFuel, chunkLoop]
    by_cases hlt : start < text.length
    · simp only [hlt, if_true, dif_pos]
      by_cases hbr : text.length ≤ start + cs
      · simp [hbr]
      · have hm : 1 ≤ max 1 step := Nat.le_max_left 1 step
        rw [ih (start + max 1 step) (by omega)]
        simp [hbr]
    · simp [hlt]

/-- C10: `chunk_text` is total.  The fuel-indexed rendering of the source
loop halts (returns `some`) within `text.length + 1` iterations for every
text, every `chunk_size`, and every `overlap` — including `overlap ≥
chunk_size`, outside the spec's precondition — because each iteration
advances the start offset by `max(1, chunk_size - overlap) ≥ 1`. -/
theorem chunk_text_total (text : List Char) (chunk_size overlap : Nat) :
    chunkLoopFuel text chunk_size (chunk_size - overlap) (text.length + 1) 0 =
      some (chunk_text text chunk_size overlap) := by
  unfold chunk_text
  by_cases he : text.isEmpty
  · have : text = [] := List.isEmpty_iff.mp he
    subst this
    simp [chunkLoopFuel]
  · simp only [he, if_false, Bool.false_eq_true]
    exact chunkLoopFuel_sufficient text chunk_size (chunk_size - overlap)
      (text.length + 1) 0 (by omega)

theorem rankedLe_trans (a b c : Nat × RagItem) :
    rankedLe a b → rankedLe b c → rankedLe a c := by
  simp [rankedLe]
  omega

theorem rankedLe_total (a b : Nat × RagItem) : rankedLe a b || rankedLe b a := by
  simp [rankedLe]
  omega

/-- C1: for every query `q` and every `k`, `retrieve_context` returns at
most `k` items; every returned item is the projection of a stored chunk
whose token overlap with `q` is at least 1; in the non-degenerate case the
result is the top-`k` prefix of the score-sorted ranking, whose score list
is descending; an empty query token set yields `[]`; and an empty store
yields `[]`. -/
theorem retrieve_context_spec (store : List Chunk) (q : List Char) (k : Nat) :
    (retrieve_context store q k).length ≤ k ∧
    (∀ item ∈ retrieve_context store q k, ∃ c ∈ store,
      item = ⟨c.filename, c.chunk_index, c.content⟩ ∧
      1 ≤ overlapCount (tokenize q) c.tokens) ∧
    (¬(tokenize q).isEmpty = true → ¬store.isEmpty = true →
      retrieve_context store q k =
        (((ranked_chunks store (tokenize q)).mergeSort rankedLe).take k).map
          (fun item => item.2)) ∧
    ((((ranked_chunks store (tokenize q)).mergeSort rankedLe).take k).map
      (fun item => item.1)).Pairwise (fun a b => b ≤ a) ∧
    (tokenize q = [] → retrieve_context store q k = []) ∧
    retrieve_context [] q k = [] := by
  refine ⟨?_, ?_, ?_, ?_, ?_, ?_⟩
  · unfold retrieve_context
    by_cases h1 : (tokenize q).isEmpty
    · simp [h1]
    · by_cases h2 : store.isEmpty
      · simp [h1, h2]
      · simp only [h1, h2, if_false, Bool.false_eq_true, List.length_map]
        rw [List.length_take]
        exact Nat.min_le_left _ _
  · intro item hmem
    unfold retrieve_context at hmem
    by_cases h1 : (tokenize q).isEmpty
    · simp [h1] at hmem
    · by_cases h2 : store.isEmpty
      · simp [h1, h2] at hmem
      · simp only [h1, h2, if_false, Bool.false_eq_true, List.mem_map] at hmem
        obtain ⟨p, hp, hitem⟩ := hmem
        have hp2 : p ∈ (ranked_chunks store (tokenize q)).mergeSort rankedLe :=
          List.mem_of_mem_take hp
        rw [List.mem_mergeSort] at hp2
        unfold ranked_chunks at hp2
        rw [List.mem_filterMap] at hp2
        obtain ⟨c, hc, hfc⟩ := hp2
        by_cases hov : 0 < overlapCount (tokenize q) c.tokens
        · simp only [hov, if_pos] at hfc
          refine ⟨c, hc, ?_, by omega⟩
          rw [← hitem, ← Option.some.inj hfc]
        · simp [hov] at hfc
  · intro h1 h2
    unfold retrieve_context
    simp only [Bool.not_eq_true] at h1 h2
    simp [h1, h2]
  · have hs := List.sorted_mergeSort rankedLe_trans
      (by intro a b; exact rankedLe_total a b)
      (ranked_chunks store (tokenize q))
    have ht : ((((ranked_chunks store (tokenize q)).mergeSort rankedLe)).take
        k).Pairwise (fun a b => rankedLe a b) :=
      List.Pairwise.sublist (List.take_sublist k _) hs
    rw [List.pairwise_map]
    exact ht.imp (by
      intro a b hab
      simpa [rankedLe] using hab)
  · intro h
    unfold retrieve_context
    simp [h]
  · unfold retrieve_context
    by_cases h1 : (tokenize q).isEmpty <;> simp [h1]

/-- A small concrete store used to instantiate the hypothesis-bearing
theorems. -/
def demoChunk : Chunk :=
  ⟨0, "doc.txt".toList, 0, "the cat sat".toList,
    sortTokens (tokenize ("the cat sat".toList))⟩

def demoStore : List Chunk := [demoChunk]

/-- Witness for C1 at a concrete query and store. -/
theorem retrieve_context_spec_witness :
    retrieve_context demoStore ("cat".toList) 2 =
      (((ranked_chunks demoStore (tokenize ("cat".toList))).mergeSort
          rankedLe).take 2).map (fun item => item.2) :=
  (retrieve_context_spec demoStore ("cat".toList) 2).2.2.1 (by decide)
    (by decide)

theorem chunkRows_filename (filename content : List Char) (nextId : Nat) :
    ∀ c ∈ chunkRows filename content nextId, c.filename = filename := by
  intro c hc
  simp only [chunkRows, List.mem_map] at hc
  obtain ⟨p, hp, rfl⟩ := hc
  rfl

/-- C9: one `add_document_chunks(filename, content)` call returns
`len(chunk_text(content))`, grows the store by exactly that many rows, makes
`filename` appear in `rag_filenames` whenever at least one chunk was added,
gives the inserted rows the zero-based chunk indices `0..n-1` and fresh
pairwise-distinct ids, and stores for each inserted row exactly the token
set of its content (as a sorted list). -/
theorem add_document_chunks_spec (store : List Chunk) (nextId : Nat)
    (filename content : List Char)
    (hfresh : ∀ c ∈ store, c.id < nextId)
    (hnodup : (store.map (fun c => c.id)).Nodup) :
    (add_document_chunks store nextId filename content).2.2 =
      (chunk_text content RAG_CHUNK_SIZE RAG_CHUNK_OVERLAP).length ∧
    (add_document_chunks store nextId filename content).1.length =
      store.length +
        (chunk_text content RAG_CHUNK_SIZE RAG_CHUNK_OVERLAP).length ∧
    (0 < (chunk_text content RAG_CHUNK_SIZE RAG_CHUNK_OVERLAP).length →
      filename ∈
        rag_filenames (add_document_chunks store nextId filename content).1) ∧
    (chunkRows filename content nextId).map (fun c => c.chunk_index) =
      List.range (chunk_text content RAG_CHUNK_SIZE RAG_CHUNK_OVERLAP).length ∧
    (chunkRows filename content nextId).map (fun c => c.id) =
      (List.range
        (chunk_text content RAG_CHUNK_SIZE RAG_CHUNK_OVERLAP).length).map
        (fun i => nextId + i) ∧
    ((add_document_chunks store nextId filename content).1.map
      (fun c => c.id)).Nodup ∧
    (∀ c ∈ chunkRows filename content nextId, ∀ t,
      t ∈ c.tokens ↔ t ∈ tokenize c.content) := by
  have hlen : (chunkRows filename content nextId).length =
      (chunk_text content RAG_CHUNK_SIZE RAG_CHUNK_OVERLAP).length := by
    simp [chunkRows]
  have hidx : (chunkRows filename content nextId).map (fun c => c.chunk_index) =
      List.range (chunk_text content RAG_CHUNK_SIZE RAG_CHUNK_OVERLAP).length := by
    rw [chunkRows, List.map_map]
    exact List.enum_map_fst _
  have hids : (chunkRows filename content nextId).map (fun c => c.id) =
      (List.range
        (chunk_text content RAG_CHUNK_SIZE RAG_CHUNK_OVERLAP).length).map
        (fun i => nextId + i) := by
    rw [chunkRows, List.map_map, ← List.enum_map_fst
      (chunk_text content RAG_CHUNK_SIZE RAG_CHUNK_OVERLAP), List.map_map]
    rfl
  refine ⟨rfl, ?_, ?_, hidx, hids, ?_, ?_⟩
  · simp [add_document_chunks, hlen]
  · intro hpos
    have hne : chunkRows filename content nextId ≠ [] := by
      intro hnil
      rw [hnil] at hlen
      simp at hlen
      omega
    obtain ⟨c, hc⟩ := List.exists_mem_of_ne_nil _ hne
    unfold rag_filenames
    rw [List.mem_mergeSort, List.mem_dedup, List.mem_map]
    refine ⟨c, ?_, chunkRows_filename filename content nextId c hc⟩
    simp [add_document_chunks]
    right
    exact hc
  · have hmaps : (add_document_chunks store nextId filename content).1.map
        (fun c => c.id) =
        store.map (fun c => c.id) ++
          (chunkRows filename content nextId).map (fun c => c.id) := by
      simp [add_document_chunks]
    rw [hmaps, List.nodup_append]
    refine ⟨hnodup, ?_, ?_⟩
    · rw [hids]
      exact (List.nodup_range _).map (fun a b h => by omega)
    · intro a ha hb
      have h1 : a < nextId := by
        rw [List.mem_map] at ha
        obtain ⟨c, hc, rfl⟩ := ha
        exact hfresh c hc
      rw [hids, List.mem_map] at hb
      obtain ⟨i, hi, rfl⟩ := hb
      omega
  · intro c hc t
    simp only [chunkRows, List.mem_map] at hc
    obtain ⟨p, hp, rfl⟩ := hc
    simp only [sortTokens]
    rw [List.mem_mergeSort]

/-- Witness for C9 on an empty store with a concrete document. -/
theorem add_document_chunks_spec_witness :
    (add_document_chunks [] 0 ("doc.txt".toList) ("hello world".toList)).2.2 =
      (chunk_text ("hello world".toList) RAG_CHUNK_SIZE
        RAG_CHUNK_OVERLAP).length :=
  (add_document_chunks_spec [] 0 ("doc.txt".toList) ("hello world".toList)
    (by simp) (by simp)).1

/-- C5 counterexample: the message `"a" + "\n"*11` has 12 lines and no
question mark, so the claim (which measures length and line count on the
message itself) says it triggers auto-ingestion; the code strips surrounding
whitespace first, leaving the single short line `"a"`, and does not
trigger. -/
theorem should_auto_ingest_counterexample :
    (RAG_AUTO_INGEST_MIN_CHARS ≤ ('a' :: List.replicate 11 '\n').length ∨
      12 ≤ ('a' :: List.replicate 11 '\n').count '\n' + 1) ∧
    ('a' :: List.replicate 11 '\n').count '?' < 2 ∧
    should_auto_ingest RAG_AUTO_INGEST_MIN_CHARS
      ('a' :: List.replicate 11 '\n') = false := by
  decide

def demo20Lines : List Char :=
  'a' :: '?' :: (List.replicate 19 ['\n', 'a']).flatten

def demo3Questions : List Char :=
  "a?\na?\na?".toList

set_option maxRecDepth 8192 in
/-- C5 (amended): `should_auto_ingest(m)` is true iff the
whitespace-stripped text of `m` is non-empty, is "long" (stripped length at
least the configured threshold, or stripped line count at least 12), and has
fewer than 2 question marks (counted on the stripped text); consequently a
20-line message with one question mark triggers, a 3-line message with three
question marks does not, and a 700-character single-line message with zero
question marks triggers. -/
theorem should_auto_ingest_spec :
    (∀ (min_chars : Nat) (m : List Char),
      should_auto_ingest min_chars m = true ↔
        (¬(pyStrip m).isEmpty = true ∧
          (min_chars ≤ (pyStrip m).length ∨
            12 ≤ (pyStrip m).count '\n' + 1) ∧
          (pyStrip m).count '?' < 2)) ∧
    should_auto_ingest RAG_AUTO_INGEST_MIN_CHARS demo20Lines = true ∧
    should_auto_ingest RAG_AUTO_INGEST_MIN_CHARS demo3Questions = false ∧
    should_auto_ingest RAG_AUTO_INGEST_MIN_CHARS
      (List.replicate 700 'a') = true := by
  refine ⟨?_, by decide, by decide, by decide⟩
  intro min_chars m
  unfold should_auto_ingest
  by_cases he : (pyStrip m).isEmpty
  · simp [he]
  · simp only [he, if_false, Bool.false_eq_true, Bool.and_eq_true,
      Bool.or_eq_true, decide_eq_true_eq, Bool.not_eq_eq_eq_not,
      Bool.not_true, decide_eq_false_iff_not, not_le]
    constructor
    · rintro ⟨hlong, hq⟩
      exact ⟨by simp [he], hlong, hq⟩
    · rintro ⟨-, hlong, hq⟩
      exact ⟨hlong, hq⟩

theorem foldl_append_filter (p : Turn → Bool) (f : Turn → Msg) :
    ∀ (l : List Turn) (init : List Msg),
      l.foldl (fun acc msg => if p msg then acc ++ [f msg] else acc) init =
        init ++ (l.filter p).map f := by
  intro l
  induction l with
  | nil => intro init; simp
  | cons a as ih =>
    intro init
    by_cases hp : p a
    · simp [List.foldl_cons, hp, ih, List.filter_cons]
    · simp [List.foldl_cons, hp, ih, List.filter_cons]

/-- Ten valid history turns with distinct non-empty contents. -/
def demoHistory : List Turn :=
  (List.range 10).map (fun i => ⟨userRole, 'm' :: natStr i⟩)

/-- C4: `build_messages` returns one system message, then the last
`n_history` history turns filtered to user/assistant roles with non-empty
content (oldest dropped first), then the new user message; with 10 valid
history turns and the configured bound 6, the result is the system message,
exactly the last 6 turns, and the user message. -/
theorem build_messages_spec :
    (∀ (store : List Chunk) (n_history : Nat) (user_message : List Char)
      (history : List Turn) (rag web : Bool) (web_results : List WebResult),
      1 ≤ n_history →
      build_messages store n_history user_message history rag web
          web_results =
        ⟨systemRole,
          build_system_prompt store rag user_message web web_results⟩ ::
          ((history.drop (history.length - n_history)).filter
            valid_turn).map (fun t => ⟨t.role, t.content⟩) ++
          [⟨userRole, user_message⟩]) ∧
    build_messages [] CHAT_HISTORY_MESSAGES ("hi".toList) demoHistory false
        false [] =
      ⟨systemRole,
        build_system_prompt [] false ("hi".toList) false []⟩ ::
        (demoHistory.drop 4).map (fun t => ⟨t.role, t.content⟩) ++
        [⟨userRole, "hi".toList⟩] ∧
    ((demoHistory.drop 4).map (fun t => (⟨t.role, t.content⟩ : Msg))).length
      = 6 := by
  refine ⟨?_, by rfl, by rfl⟩
  intro store n_history user_message history rag web web_results hn
  simp only [build_messages, pyLastSlice]
  rw [if_neg (show ¬n_history = 0 by omega)]
  rw [foldl_append_filter valid_turn (fun t => ⟨t.role, t.content⟩)]
  simp

/-- Witness for C4 at concrete arguments. -/
theorem build_messages_spec_witness :
    build_messages [] 6 ("hi".toList) ([] : List Turn) false false [] =
      ⟨systemRole, build_system_prompt [] false ("hi".toList) false []⟩ ::
        ((([] : List Turn).drop (([] : List Turn).length - 6)).filter
          valid_turn).map (fun t => ⟨t.role, t.content⟩) ++
        [⟨userRole, "hi".toList⟩] :=
  build_messages_spec.1 [] 6 ("hi".toList) [] false false [] (by omega)

/-- C7: with absent credentials the web lookup returns
`([], "not_configured")` and issues no provider request; on a non-success
response or a transport failure it returns `([], "lookup_failed")` (as a
value, never an exception); on success no result has all three of title,
snippet and link empty; and any request actually issued carries a result
count clamped to `max 1 (min top_k 10) ∈ [1, 10]`. -/
theorem fetch_google_results_spec (apiKey cseId query : List Char)
    (outcome : WebOutcome) (top_k : Nat) :
    (web_lookup_configured apiKey cseId = false →
      fetch_google_results apiKey cseId outcome query top_k =
        (none, [], some .not_configured)) ∧
    (web_lookup_configured apiKey cseId = true →
      outcome = .transportError →
      fetch_google_results apiKey cseId outcome query top_k =
        (some ⟨apiKey, cseId, query, max 1 (min top_k 10)⟩, [],
          some .lookup_failed)) ∧
    (web_lookup_configured apiKey cseId = true →
      ∀ items, outcome = .httpResponse false items →
      fetch_google_results apiKey cseId outcome query top_k =
        (some ⟨apiKey, cseId, query, max 1 (min top_k 10)⟩, [],
          some .lookup_failed)) ∧
    (∀ r ∈ (fetch_google_results apiKey cseId outcome query top_k).2.1,
      ¬(r.title = [] ∧ r.snippet = [] ∧ r.link = [])) ∧
    (∀ reqSent,
      (fetch_google_results apiKey cseId outcome query top_k).1 =
        some reqSent →
      reqSent.num = max 1 (min top_k 10) ∧ 1 ≤ reqSent.num ∧
        reqSent.num ≤ 10) := by
  refine ⟨?_, ?_, ?_, ?_, ?_⟩
  · intro hc
    simp [fetch_google_results, hc]
  · intro hc hout
    subst hout
    simp [fetch_google_results, hc]
  · intro hc items hout
    subst hout
    simp [fetch_google_results, hc]
  · intro r hr
    unfold fetch_google_results at hr
    by_cases hc : web_lookup_configured apiKey cseId
    · simp only [hc, Bool.not_true, if_false, Bool.false_eq_true] at hr
      cases outcome with
      | transportError => cases hr
      | httpResponse ok items =>
        by_cases hok : ok
        · simp only [hok, Bool.not_true, if_false, Bool.false_eq_true] at hr
          rw [List.mem_filterMap] at hr
          obtain ⟨item, hitem, hsome⟩ := hr
          by_cases hkeep : !item.title.isEmpty || !item.snippet.isEmpty ||
              !item.link.isEmpty
          · simp only [hkeep, if_pos] at hsome
            obtain rfl := Option.some.inj hsome
            simp only [Bool.or_eq_true, Bool.not_eq_eq_eq_not, Bool.not_true,
              Bool.not_eq_true', List.isEmpty_eq_false] at hkeep
            rintro ⟨h1, h2, h3⟩
            simp_all
          · simp [hkeep] at hsome
        · simp [hok] at hr
    · simp [hc] at hr
  · intro reqSent hreq
    unfold fetch_google_results at hreq
    by_cases hc : web_lookup_configured apiKey cseId
    · have hnum : reqSent = ⟨apiKey, cseId, query, max 1 (min top_k 10)⟩ := by
        cases outcome with
        | transportError =>
          simp only [hc, Bool.not_true, if_false, Bool.false_eq_true] at hreq
          exact (Option.some.inj hreq).symm
        | httpResponse ok items =>
          by_cases hok : ok
          · simp only [hc, hok, Bool.not_true, if_false,
              Bool.false_eq_true] at hreq
            exact (Option.some.inj hreq).symm
          · simp only [hc, hok, Bool.not_true, Bool.not_false, if_true,
              if_false, Bool.false_eq_true] at hreq
            exact (Option.some.inj hreq).symm
      subst hnum
      refine ⟨rfl, Nat.le_max_left 1 _, ?_⟩
      show max 1 (min top_k 10) ≤ 10
      exact Nat.max_le.mpr ⟨by omega, Nat.min_le_right top_k 10⟩
    · simp [hc] at hreq

/-- Witness for C7 with absent credentials. -/
theorem fetch_google_results_spec_witness :
    fetch_google_results [] [] .transportError ("x".toList) 5 =
      (none, [], some .not_configured) :=
  (fetch_google_results_spec [] [] ("x".toList) .transportError 5).1 rfl

/-- C8: in single-shot mode a non-200 downstream status is a generic 500
failure (success false); a 200 response with empty assistant text is also a
500 failure; otherwise the endpoint succeeds and the returned message equals
the assistant text with surrounding whitespace stripped. -/
theorem chat_downstream_spec (selected_model : List Char)
    (rag web : Bool) (status : Nat) (content : List Char) :
    (status ≠ 200 →
      chat_downstream selected_model rag web (.httpResponse status content) =
        .err 500 generic_chat_error) ∧
    (content = [] →
      chat_downstream selected_model rag web (.httpResponse 200 content) =
        .err 500 generic_chat_error) ∧
    (content ≠ [] →
      chat_downstream selected_model rag web (.httpResponse 200 content) =
        .ok (pyStrip content) selected_model rag false web) := by
  refine ⟨?_, ?_, ?_⟩
  · intro hs
    simp [chat_downstream, hs]
  · intro hc
    subst hc
    simp [chat_downstream]
  · intro hc
    have : ¬content.isEmpty = true := by
      simpa [List.isEmpty_iff] using hc
    simp [chat_downstream, this]

/-- Witness for C8 at a concrete 200 response. -/
theorem chat_downstream_spec_witness :
    chat_downstream OLLAMA_MODEL false false
        (.httpResponse 200 (" hi ".toList)) =
      .ok (pyStrip (" hi ".toList)) OLLAMA_MODEL false false false :=
  (chat_downstream_spec OLLAMA_MODEL false false 200 (" hi ".toList)).2.2
    (by decide)

/-- C3: the streaming relay emits one token event per record with non-empty
content, in arrival order, skipping blank and malformed fragments; on the
first fragment whose `done` flag is set it emits exactly one completion
event carrying the selected model and the RAG/web flags and nothing further
(everything after that fragment is ignored); 3 content fragments followed by
a done record yield exactly 3 token events then 1 completion event; and a
non-200 downstream response yields exactly one error event. -/
theorem stream_relay_spec (selected_model : List Char) (rag web : Bool)
    (pre rest : List Fragment) (c : List Char) (status : Nat)
    (bodyText : List Char) (fragments : List Fragment)
    (hpre : ∀ f ∈ pre, fragment_is_done f = false) :
    relay_fragments selected_model rag web
        (pre ++ Fragment.record c true :: rest) =
      (pre.map fragment_tokens).flatten ++
        (if c.isEmpty then [] else [Event.token c]) ++
        [Event.done selected_model rag false web] ∧
    (status ≠ 200 →
      stream_generate selected_model rag web status bodyText fragments =
        [Event.error (("Ollama API error").toList) bodyText]) ∧
    relay_fragments selected_model rag web
        [Fragment.record ("a".toList) false,
          Fragment.record ("b".toList) false,
          Fragment.record ("c".toList) false, Fragment.record [] true] =
      [Event.token ("a".toList), Event.token ("b".toList),
        Event.token ("c".toList),
        Event.done selected_model rag false web] := by
  refine ⟨?_, ?_, ?_⟩
  · induction pre with
    | nil =>
      by_cases hc : c.isEmpty
      · simp [relay_fragments, hc]
      · simp [relay_fragments, hc]
    | cons f fs ih =>
      have hf : fragment_is_done f = false := hpre f (by simp)
      have hfs : ∀ g ∈ fs, fragment_is_done g = false := by
        intro g hg
        exact hpre g (by simp [hg])
      have ih2 := ih hfs
      cases f with
      | blank => simpa [relay_fragments, fragment_tokens] using ih2
      | malformed => simpa [relay_fragments, fragment_tokens] using ih2
      | record fc fd =>
        have hfd : fd = false := by simpa [fragment_is_done] using hf
        subst hfd
        by_cases hfc : fc.isEmpty
        · simpa [relay_fragments, fragment_tokens, hfc] using ih2
        · simp [relay_fragments, fragment_tokens, hfc, ih2]
  · intro hs
    simp [stream_generate, hs]
  · simp [relay_fragments]

/-- Witness for C3 with a concrete doneless prefix. -/
theorem stream_relay_spec_witness :
    relay_fragments OLLAMA_MODEL false false
        ([Fragment.malformed, Fragment.record ("x".toList) false] ++
          Fragment.record ("y".toList) true :: []) =
      (([Fragment.malformed,
          Fragment.record ("x".toList) false]).map fragment_tokens).flatten ++
        (if ("y".toList).isEmpty then [] else [Event.token ("y".toList)]) ++
        [Event.done OLLAMA_MODEL false false false] :=
  (stream_relay_spec OLLAMA_MODEL false false
    [Fragment.malformed, Fragment.record ("x".toList) false] []
    ("y".toList) 200 [] [] (by decide)).1

/-- C6: when RAG is enabled and the auto-ingest heuristic fires (and the
request is not rejected earlier by the web configuration check), both the
single-shot and the streaming orchestrator ingest the message into the
document store and terminate with an acknowledgment whose `rag_ingested`
flag is true, without dispatching to the model; in streaming mode the
acknowledgment is exactly one token event immediately followed by one
completion event. -/
theorem chat_auto_ingest_spec (apiKey cseId : List Char)
    (webOutcome : WebOutcome) (store : List Chunk) (nextId : Nat)
    (req : ChatRequest)
    (hrag : req.rag_enabled = true)
    (hingest : should_auto_ingest RAG_AUTO_INGEST_MIN_CHARS req.message = true)
    (hweb : req.web_enabled = true →
      (fetch_google_results apiKey cseId webOutcome req.message
        WEB_LOOKUP_TOP_K).2.2 ≠ some .not_configured) :
    chat_step apiKey cseId webOutcome store nextId req =
      .ingestAck
        ⟨true,
          ack_text (ingest_pasted_document store nextId req.message).filename
            (ingest_pasted_document store nextId req.message).chunks_added,
          resolve_model req.model, true, true,
          (rag_counts
            (ingest_pasted_document store nextId req.message).newStore).2,
          req.web_enabled⟩
        (ingest_pasted_document store nextId req.message).newStore
        (ingest_pasted_document store nextId req.message).newNextId ∧
    (ingest_pasted_document store nextId req.message).newStore =
      store ++
        chunkRows (ingest_pasted_document store nextId req.message).filename
          req.message nextId ∧
    (∀ msgs,
      chat_step apiKey cseId webOutcome store nextId req ≠
        .callModel msgs) ∧
    chat_stream_step apiKey cseId webOutcome store nextId req =
      .ingestStream
        (generate_ingest_ack
          (ingest_pasted_document store nextId req.message).filename
          (ingest_pasted_document store nextId req.message).chunks_added
          (resolve_model req.model) req.web_enabled)
        (ingest_pasted_document store nextId req.message).newStore
        (ingest_pasted_document store nextId req.message).newNextId ∧
    generate_ingest_ack
        (ingest_pasted_document store nextId req.message).filename
        (ingest_pasted_document store nextId req.message).chunks_added
        (resolve_model req.model) req.web_enabled =
      [Event.token
        (ack_text (ingest_pasted_document store nextId req.message).filename
          (ingest_pasted_document store nextId req.message).chunks_added),
        Event.done (resolve_model req.model) true true req.web_enabled] := by
  have hweb2 : (req.web_enabled &&
      decide ((if req.web_enabled then
        fetch_google_results apiKey cseId webOutcome req.message
          WEB_LOOKUP_TOP_K
      else (none, [], none)).2.2 = some .not_configured)) = false := by
    by_cases hw : req.web_enabled
    · simp [hw, hweb hw]
    · simp [hw]
  refine ⟨?_, ?_, ?_, ?_, rfl⟩
  · simp only [chat_step]
    rw [if_neg (by simp [hweb2]), if_pos (by simp [hrag, hingest])]
  · simp [ingest_pasted_document, add_document_chunks]
  · intro msgs
    simp only [chat_step]
    rw [if_neg (by simp [hweb2]), if_pos (by simp [hrag, hingest])]
    intro h
    cases h
  · simp only [chat_stream_step]
    rw [if_neg (by simp [hweb2]), if_pos (by simp [hrag, hingest])]

/-- A concrete auto-ingest request: a 700-character pasted single line, RAG
enabled, web disabled. -/
def demoReq : ChatRequest :=
  ⟨List.replicate 700 'a', [], true, false, none⟩

set_option maxRecDepth 8192 in
/-- Witness for C6 at a concrete request. -/
theorem chat_auto_ingest_spec_witness :
    generate_ingest_ack
        (ingest_pasted_document [] 0 demoReq.message).filename
        (ingest_pasted_document [] 0 demoReq.message).chunks_added
        (resolve_model demoReq.model) demoReq.web_enabled =
      [Event.token
        (ack_text (ingest_pasted_document [] 0 demoReq.message).filename
          (ingest_pasted_document [] 0 demoReq.message).chunks_added),
        Event.done (resolve_model demoReq.model) true true
          demoReq.web_enabled] :=
  (chat_auto_ingest_spec [] [] .transportError [] 0 demoReq rfl (by decide)
    (fun h => Bool.noConfusion h)).2.2.2.2
